import Mathlib

/-!
Verification of the calendar-aware elapsed-time computation
(`calculate_detailed_age` in
`Section_032 .../age_counter/age_logic.py`) against its specification.

The embedding models Python `datetime.datetime` values at second
precision as records of `Int` fields, with the proleptic Gregorian
ordinal arithmetic of CPython's `datetime` module (`_days_before_year`,
`_days_before_month`, `_days_in_month`).  Python's `//` and `%` on
integers are floor division and nonnegative remainder, which coincide
with Lean's `/` and `%` on `Int` (for positive divisors), and
`timedelta` normalization (`days` = floor, `seconds` in `[0, 86400)`)
is exactly `/ 86400` and `% 86400` on the total signed second count.
Constructing a `datetime` raises `ValueError` unless
`1 <= year <= 9999`, `1 <= month <= 12`, `1 <= day <= days_in_month`,
and the time fields are in range; this is modelled by `mkDateTime`
returning an `Option`.
-/

/-- A Python `datetime.datetime` value at second precision. -/
structure DateTime where
  year : Int
  month : Int
  day : Int
  hour : Int
  minute : Int
  second : Int
deriving DecidableEq, Repr

/-- The six-field result dictionary returned by `calculate_detailed_age`. -/
structure Breakdown where
  years : Int
  months : Int
  days : Int
  hours : Int
  minutes : Int
  seconds : Int
deriving DecidableEq, Repr

/-- Gregorian leap-year test, as in CPython `datetime._is_leap`. -/
def isLeap (y : Int) : Prop := y % 4 = 0 ∧ (y % 100 ≠ 0 ∨ y % 400 = 0)

instance (y : Int) : Decidable (isLeap y) :=
  inferInstanceAs (Decidable (y % 4 = 0 ∧ (y % 100 ≠ 0 ∨ y % 400 = 0)))

/-- Number of days in a month, as in CPython `datetime._days_in_month`. -/
def daysInMonth (y m : Int) : Int :=
  if m = 2 then (if isLeap y then 29 else 28)
  else if m = 4 ∨ m = 6 ∨ m = 9 ∨ m = 11 then 30
  else 31

/-- Cumulative day counts before each month in a non-leap year, the
`_DAYS_BEFORE_MONTH` table of CPython `datetime`. -/
def daysBeforeMonthBase (m : Int) : Int :=
  if m ≤ 1 then 0
  else if m = 2 then 31
  else if m = 3 then 59
  else if m = 4 then 90
  else if m = 5 then 120
  else if m = 6 then 151
  else if m = 7 then 181
  else if m = 8 then 212
  else if m = 9 then 243
  else if m = 10 then 273
  else if m = 11 then 304
  else 334

/-- Days in year `y` before the first of month `m`, as in CPython
`datetime._days_before_month`. -/
def daysBeforeMonth (y m : Int) : Int :=
  daysBeforeMonthBase m + (if 2 < m ∧ isLeap y then 1 else 0)

/-- Days before January 1 of year `y`, as in CPython
`datetime._days_before_year`. -/
def daysBeforeYear (y : Int) : Int :=
  (y - 1) * 365 + (y - 1) / 4 - (y - 1) / 100 + (y - 1) / 400

/-- Proleptic Gregorian ordinal of a date (1 for 0001-01-01), as in
CPython `datetime._ymd2ord`. -/
def toOrdinal (t : DateTime) : Int :=
  daysBeforeYear t.year + daysBeforeMonth t.year t.month + t.day

/-- Seconds since midnight. -/
def timeOfDay (t : DateTime) : Int :=
  t.hour * 3600 + t.minute * 60 + t.second

/-- Signed total-second timeline position of an instant; fixed-duration
datetime subtraction is the difference of these values. -/
def toSecs (t : DateTime) : Int :=
  toOrdinal t * 86400 + timeOfDay t

/-- Field ranges enforced by the Python `datetime` constructor. -/
def Valid (t : DateTime) : Prop :=
  1 ≤ t.year ∧ t.year ≤ 9999 ∧ 1 ≤ t.month ∧ t.month ≤ 12 ∧
  1 ≤ t.day ∧ t.day ≤ daysInMonth t.year t.month ∧
  0 ≤ t.hour ∧ t.hour ≤ 23 ∧ 0 ≤ t.minute ∧ t.minute ≤ 59 ∧
  0 ≤ t.second ∧ t.second ≤ 59

instance (t : DateTime) : Decidable (Valid t) := by
  unfold Valid; infer_instance

/-- The fallible `datetime(...)` constructor: `some` on in-range fields,
`none` where CPython raises `ValueError`. -/
def mkDateTime (y m d h mi s : Int) : Option DateTime :=
  if 1 ≤ y ∧ y ≤ 9999 ∧ 1 ≤ m ∧ m ≤ 12 ∧ 1 ≤ d ∧ d ≤ daysInMonth y m ∧
     0 ≤ h ∧ h ≤ 23 ∧ 0 ≤ mi ∧ mi ≤ 59 ∧ 0 ≤ s ∧ s ≤ 59
  then some ⟨y, m, d, h, mi, s⟩ else none

/-- Python tuple comparison `(a1, a2) < (b1, b2)`. -/
def pairLt (a b : Int × Int) : Prop :=
  a.1 < b.1 ∨ (a.1 = b.1 ∧ a.2 < b.2)

instance (a b : Int × Int) : Decidable (pairLt a b) := by
  unfold pairLt; infer_instance

/-- Python `datetime` strict comparison: lexicographic on the six fields. -/
def dtLt (a b : DateTime) : Prop :=
  a.year < b.year ∨ (a.year = b.year ∧
    (a.month < b.month ∨ (a.month = b.month ∧
      (a.day < b.day ∨ (a.day = b.day ∧
        (a.hour < b.hour ∨ (a.hour = b.hour ∧
          (a.minute < b.minute ∨ (a.minute = b.minute ∧
            a.second < b.second)))))))))

instance (a b : DateTime) : Decidable (dtLt a b) := by
  unfold dtLt; infer_instance

/-- Python `datetime` comparison `a <= b`. -/
def dtLe (a b : DateTime) : Prop := dtLt a b ∨ a = b

instance (a b : DateTime) : Decidable (dtLe a b) := by
  unfold dtLe; infer_instance

/-- The `years` value computed by lines 4-6 of `age_logic.py`. -/
def ageYears (now dob : DateTime) : Int :=
  if pairLt (now.month, now.day) (dob.month, dob.day)
  then now.year - dob.year - 1 else now.year - dob.year

/-- The `months` value computed by lines 8-12 of `age_logic.py`. -/
def ageMonths (now dob : DateTime) : Int :=
  let m1 := if now.day < dob.day
            then now.month - dob.month - 1 else now.month - dob.month
  if m1 < 0 then m1 + 12 else m1

/-- The `last_birthday_year` after the month-overflow correction
(lines 14-19 of `age_logic.py`). -/
def annivYear (now dob : DateTime) : Int :=
  if dob.month + ageMonths now dob > 12
  then dob.year + ageYears now dob + 1 else dob.year + ageYears now dob

/-- The `last_birthday_month` after the month-overflow correction
(lines 15-19 of `age_logic.py`). -/
def annivMonth (now dob : DateTime) : Int :=
  if dob.month + ageMonths now dob > 12
  then dob.month + ageMonths now dob - 12 else dob.month + ageMonths now dob

/-- `calculate_detailed_age(now, dob)` from `age_logic.py`: `none` models
the `ValueError` escaping from the `datetime(...)` construction of
`last_birthday`. -/
def calculate_detailed_age (now dob : DateTime) : Option Breakdown :=
  match mkDateTime (annivYear now dob) (annivMonth now dob)
          dob.day dob.hour dob.minute dob.second with
  | none => none
  | some lb =>
      let delta := toSecs now - toSecs lb
      let seconds_left := delta % 86400
      some { years := ageYears now dob
             months := ageMonths now dob
             days := delta / 86400
             hours := seconds_left / 3600
             minutes := (seconds_left % 3600) / 60
             seconds := seconds_left % 60 }

/-- Calendar addition of whole years and months to an instant, keeping
day-of-month and time-of-day and normalizing a month overflow past 12,
following the spec's wording of the reconstruction law (the re-addition
operation itself is not part of the repository's code). -/
def calendarAddYM (t : DateTime) (y m : Int) : DateTime :=
  if t.month + m > 12
  then ⟨t.year + y + 1, t.month + m - 12, t.day, t.hour, t.minute, t.second⟩
  else ⟨t.year + y, t.month + m, t.day, t.hour, t.minute, t.second⟩

/-- Advancing an instant by one second under standard calendar rules
(the spec's "advancing `reference` by one second"). -/
def succSecond (t : DateTime) : DateTime :=
  if t.second < 59 then { t with second := t.second + 1 }
  else if t.minute < 59 then { t with minute := t.minute + 1, second := 0 }
  else if t.hour < 23 then { t with hour := t.hour + 1, minute := 0, second := 0 }
  else if t.day < daysInMonth t.year t.month then
    { t with day := t.day + 1, hour := 0, minute := 0, second := 0 }
  else if t.month < 12 then
    { t with month := t.month + 1, day := 1, hour := 0, minute := 0, second := 0 }
  else ⟨t.year + 1, 1, 1, 0, 0, 0⟩

/-- The fixed-duration part of a breakdown, in seconds. -/
def breakdownSecs (b : Breakdown) : Int :=
  86400 * b.days + 3600 * b.hours + 60 * b.minutes + b.seconds

/-- The calendar part of a breakdown, in whole months. -/
def monthsTotal (b : Breakdown) : Int :=
  12 * b.years + b.months

/-- The `last_birthday` record that `calculate_detailed_age` attempts to
construct (before the validity check of the `datetime` constructor). -/
def lastAnniversary (now dob : DateTime) : DateTime :=
  ⟨annivYear now dob, annivMonth now dob, dob.day, dob.hour, dob.minute, dob.second⟩

-- Sanity checks of the embedding against hand-computed Python runs.
example : toOrdinal ⟨1, 1, 1, 0, 0, 0⟩ = 1 := by decide
example : toOrdinal ⟨1, 12, 31, 0, 0, 0⟩ = 365 := by decide
example : toOrdinal ⟨2, 1, 1, 0, 0, 0⟩ = 366 := by decide
example : daysInMonth 2024 2 = 29 := by decide
example : daysInMonth 1900 2 = 28 := by decide
example : daysInMonth 2000 2 = 29 := by decide
example :
    calculate_detailed_age ⟨2024, 3, 15, 10, 0, 0⟩ ⟨2000, 3, 15, 10, 0, 0⟩ =
      some ⟨24, 0, 0, 0, 0, 0⟩ := by decide
example :
    calculate_detailed_age ⟨2024, 3, 14, 10, 0, 0⟩ ⟨2000, 3, 15, 10, 0, 0⟩ =
      some ⟨23, 11, 28, 0, 0, 0⟩ := by decide
example :
    calculate_detailed_age ⟨2000, 3, 1, 0, 0, 0⟩ ⟨1999, 2, 28, 0, 0, 0⟩ =
      some ⟨1, 0, 2, 0, 0, 0⟩ := by decide
example :
    calculate_detailed_age ⟨2024, 3, 1, 0, 0, 0⟩ ⟨2024, 1, 31, 0, 0, 0⟩ =
      none := by decide
example :
    calculate_detailed_age ⟨2024, 3, 15, 9, 0, 0⟩ ⟨2000, 3, 15, 10, 0, 0⟩ =
      some ⟨24, 0, -1, 23, 0, 0⟩ := by decide

theorem daysInMonth_bounds (y m : Int) : 28 ≤ daysInMonth y m ∧ daysInMonth y m ≤ 31 := by
  unfold daysInMonth; split_ifs <;> omega

set_option maxHeartbeats 1000000 in
theorem daysBeforeMonth_nonneg (y m : Int) (h1 : 1 ≤ m) (h2 : m ≤ 12) :
    0 ≤ daysBeforeMonth y m := by
  by_cases hL : isLeap y <;> interval_cases m <;>
    norm_num [daysBeforeMonth, daysBeforeMonthBase, hL]

theorem daysBeforeMonth_one (y : Int) : daysBeforeMonth y 1 = 0 := by
  norm_num [daysBeforeMonth, daysBeforeMonthBase]

set_option maxHeartbeats 1000000 in
theorem daysBeforeMonth_succ (y m : Int) (h1 : 1 ≤ m) (h2 : m ≤ 11) :
    daysBeforeMonth y (m + 1) = daysBeforeMonth y m + daysInMonth y m := by
  by_cases hL : isLeap y <;> interval_cases m <;>
    norm_num [daysBeforeMonth, daysBeforeMonthBase, daysInMonth, hL]

set_option maxHeartbeats 4000000 in
theorem daysBeforeMonth_step (y m1 m2 : Int) (h1 : 1 ≤ m1) (h2 : m1 < m2) (h3 : m2 ≤ 12) :
    daysBeforeMonth y m1 + daysInMonth y m1 ≤ daysBeforeMonth y m2 := by
  have h4 : m1 ≤ 11 := by omega
  have h5 : 2 ≤ m2 := by omega
  by_cases hL : isLeap y <;> interval_cases m1 <;> interval_cases m2 <;>
    norm_num [daysBeforeMonth, daysBeforeMonthBase, daysInMonth, hL]

set_option maxHeartbeats 1000000 in
theorem daysBeforeMonth_twelve (y : Int) :
    daysBeforeMonth y 12 + daysInMonth y 12 = 365 + (if isLeap y then 1 else 0) := by
  by_cases hL : isLeap y <;>
    norm_num [daysBeforeMonth, daysBeforeMonthBase, daysInMonth, hL]

theorem daysBeforeYear_succ (y : Int) :
    daysBeforeYear (y + 1) = daysBeforeYear y + 365 + (if isLeap y then 1 else 0) := by
  unfold daysBeforeYear isLeap; split_ifs with hL <;> omega

theorem daysBeforeYear_mono (y1 y2 : Int) (h : y1 ≤ y2) :
    daysBeforeYear y1 ≤ daysBeforeYear y2 := by
  unfold daysBeforeYear; omega

theorem toOrdinal_lt_of_dateLt (a b : DateTime)
    (ham : 1 ≤ a.month) (ham2 : a.month ≤ 12) (had : 1 ≤ a.day)
    (had2 : a.day ≤ daysInMonth a.year a.month)
    (hbm : 1 ≤ b.month) (hbm2 : b.month ≤ 12) (hbd : 1 ≤ b.day)
    (h : a.year < b.year ∨ (a.year = b.year ∧
      (a.month < b.month ∨ (a.month = b.month ∧ a.day < b.day)))) :
    toOrdinal a < toOrdinal b := by
  unfold toOrdinal
  rcases h with hy | ⟨hy, hm | ⟨hm, hd⟩⟩
  · have h12 := daysBeforeMonth_twelve a.year
    have hsucc := daysBeforeYear_succ a.year
    have hmono := daysBeforeYear_mono (a.year + 1) b.year (by omega)
    have hb0 := daysBeforeMonth_nonneg b.year b.month hbm hbm2
    have hb12 := (daysInMonth_bounds a.year 12).1
    have hmax : daysBeforeMonth a.year a.month + a.day ≤
        365 + (if isLeap a.year then 1 else 0) := by
      rcases eq_or_lt_of_le ham2 with h12e | hlt
      · rw [h12e] at had2 ⊢
        omega
      · have hstep := daysBeforeMonth_step a.year a.month 12 ham hlt le_rfl
        omega
    omega
  · have hstep := daysBeforeMonth_step a.year a.month b.month ham hm hbm2
    rw [hy] at hstep had2 ⊢
    omega
  · rw [hy, hm]
    omega

theorem toSecs_succSecond (t : DateTime) (hv : Valid t) :
    toSecs (succSecond t) = toSecs t + 1 := by
  obtain ⟨h1, h2, h3, h4, h5, h6, h7, h8, h9, h10, h11, h12⟩ := hv
  unfold succSecond
  split_ifs with hs hmi hh hd hmo
  · simp [toSecs, toOrdinal, timeOfDay]; omega
  · simp [toSecs, toOrdinal, timeOfDay]; omega
  · simp [toSecs, toOrdinal, timeOfDay]; omega
  · simp [toSecs, toOrdinal, timeOfDay]; omega
  · have hstep := daysBeforeMonth_succ t.year t.month h3 (by omega)
    simp [toSecs, toOrdinal, timeOfDay]
    omega
  · have hm12 : t.month = 12 := by omega
    have ha := daysBeforeMonth_twelve t.year
    have hb := daysBeforeYear_succ t.year
    have hc := daysBeforeMonth_one (t.year + 1)
    simp [toSecs, toOrdinal, timeOfDay]
    rw [hm12] at hd h6 ⊢
    omega

theorem calc_spec {now dob : DateTime} {b : Breakdown}
    (hb : calculate_detailed_age now dob = some b) :
    (1 ≤ annivYear now dob ∧ annivYear now dob ≤ 9999 ∧
     1 ≤ annivMonth now dob ∧ annivMonth now dob ≤ 12 ∧
     1 ≤ dob.day ∧ dob.day ≤ daysInMonth (annivYear now dob) (annivMonth now dob) ∧
     0 ≤ dob.hour ∧ dob.hour ≤ 23 ∧ 0 ≤ dob.minute ∧ dob.minute ≤ 59 ∧
     0 ≤ dob.second ∧ dob.second ≤ 59) ∧
    b.years = ageYears now dob ∧
    b.months = ageMonths now dob ∧
    b.days = (toSecs now - toSecs (lastAnniversary now dob)) / 86400 ∧
    b.hours = ((toSecs now - toSecs (lastAnniversary now dob)) % 86400) / 3600 ∧
    b.minutes = (((toSecs now - toSecs (lastAnniversary now dob)) % 86400) % 3600) / 60 ∧
    b.seconds = ((toSecs now - toSecs (lastAnniversary now dob)) % 86400) % 60 := by
  unfold calculate_detailed_age mkDateTime at hb
  split_ifs at hb with hcond
  · simp only [Option.some.injEq] at hb
    refine ⟨hcond, ?_, ?_, ?_, ?_, ?_, ?_⟩ <;>
      simp [← hb, lastAnniversary]

theorem calc_eq_none_iff (now dob : DateTime) :
    calculate_detailed_age now dob = none ↔
      ¬ (1 ≤ annivYear now dob ∧ annivYear now dob ≤ 9999 ∧
         1 ≤ annivMonth now dob ∧ annivMonth now dob ≤ 12 ∧
         1 ≤ dob.day ∧ dob.day ≤ daysInMonth (annivYear now dob) (annivMonth now dob) ∧
         0 ≤ dob.hour ∧ dob.hour ≤ 23 ∧ 0 ≤ dob.minute ∧ dob.minute ≤ 59 ∧
         0 ≤ dob.second ∧ dob.second ≤ 59) := by
  unfold calculate_detailed_age mkDateTime
  split_ifs with h <;> simp [h]

theorem ageMonths_range (now dob : DateTime)
    (h1 : 1 ≤ now.month) (h2 : now.month ≤ 12)
    (h3 : 1 ≤ dob.month) (h4 : dob.month ≤ 12) :
    0 ≤ ageMonths now dob ∧ ageMonths now dob ≤ 11 := by
  simp only [ageMonths]
  split_ifs <;> omega

theorem anniv_date_le (now dob : DateTime)
    (hv1 : Valid dob) (hv2 : Valid now) (hle : dtLe dob now) :
    (annivYear now dob = now.year ∧ annivMonth now dob = now.month ∧
      dob.day = now.day) ∨
    (annivYear now dob < now.year ∨ (annivYear now dob = now.year ∧
      (annivMonth now dob < now.month ∨ (annivMonth now dob = now.month ∧
        dob.day < now.day)))) := by
  obtain ⟨a1, a2, a3, a4, a5, a6, a7, a8, a9, a10, a11, a12⟩ := hv1
  obtain ⟨c1, c2, c3, c4, c5, c6, c7, c8, c9, c10, c11, c12⟩ := hv2
  rcases hle with hlt | rfl
  · simp only [dtLt] at hlt
    simp [annivYear, annivMonth, ageYears, ageMonths, pairLt]
    split_ifs <;> omega
  · simp [annivYear, annivMonth, ageYears, ageMonths, pairLt]
    split_ifs <;> omega

theorem annivYear_bounds (now dob : DateTime)
    (hv1 : Valid dob) (hv2 : Valid now) (hle : dtLe dob now) :
    dob.year ≤ annivYear now dob ∧ annivYear now dob ≤ now.year := by
  obtain ⟨a1, a2, a3, a4, a5, a6, a7, a8, a9, a10, a11, a12⟩ := hv1
  obtain ⟨c1, c2, c3, c4, c5, c6, c7, c8, c9, c10, c11, c12⟩ := hv2
  rcases hle with hlt | rfl
  · simp only [dtLt] at hlt
    simp [annivYear, annivMonth, ageYears, ageMonths, pairLt]
    split_ifs <;> omega
  · simp [annivYear, annivMonth, ageYears, ageMonths, pairLt]
    split_ifs <;> omega

theorem annivMonth_range (now dob : DateTime)
    (h1 : 1 ≤ now.month) (h2 : now.month ≤ 12)
    (h3 : 1 ≤ dob.month) (h4 : dob.month ≤ 12) :
    1 ≤ annivMonth now dob ∧ annivMonth now dob ≤ 12 := by
  simp only [annivMonth, ageMonths]
  split_ifs <;> omega

theorem days_lower_bound (now dob : DateTime) (b : Breakdown)
    (hv1 : Valid dob) (hv2 : Valid now) (hle : dtLe dob now)
    (hb : calculate_detailed_age now dob = some b) :
    -1 ≤ b.days ∧ (timeOfDay dob ≤ timeOfDay now → 0 ≤ b.days) := by
  obtain ⟨hcond, hy, hm, hd, hh, hmi, hs⟩ := calc_spec hb
  have htod : timeOfDay (lastAnniversary now dob) = timeOfDay dob := by
    simp [lastAnniversary, timeOfDay]
  have htd1 : 0 ≤ timeOfDay dob ∧ timeOfDay dob ≤ 86399 := by
    obtain ⟨a1, a2, a3, a4, a5, a6, a7, a8, a9, a10, a11, a12⟩ := hv1
    unfold timeOfDay; omega
  have htd2 : 0 ≤ timeOfDay now ∧ timeOfDay now ≤ 86399 := by
    obtain ⟨c1, c2, c3, c4, c5, c6, c7, c8, c9, c10, c11, c12⟩ := hv2
    unfold timeOfDay; omega
  rcases anniv_date_le now dob hv1 hv2 hle with ⟨e1, e2, e3⟩ | hplt
  · have hord : toOrdinal (lastAnniversary now dob) = toOrdinal now := by
      simp [lastAnniversary, toOrdinal, e1, e2, e3]
    simp only [toSecs] at hd
    rw [hord, htod] at hd
    omega
  · have hord : toOrdinal (lastAnniversary now dob) < toOrdinal now := by
      obtain ⟨k1, k2, k3, k4, k5, k6, k7, k8, k9, k10, k11, k12⟩ := hcond
      obtain ⟨c1, c2, c3, c4, c5, c6, c7, c8, c9, c10, c11, c12⟩ := hv2
      exact toOrdinal_lt_of_dateLt (lastAnniversary now dob) now k3 k4 k5 k6 c3 c4 c5 hplt
    simp only [toSecs] at hd
    rw [htod] at hd
    omega

/-- C1: for every pair of valid instants with `origin <= reference` for
which `calculate_detailed_age` returns a breakdown, adding the breakdown
back onto the origin — years and months by calendar addition
(`calendarAddYM`), days/hours/minutes/seconds as a fixed duration in
seconds — lands exactly on the reference instant. -/
theorem claim_C1_reconstruction (now dob : DateTime) (b : Breakdown)
    (hv1 : Valid dob) (hv2 : Valid now) (hle : dtLe dob now)
    (hb : calculate_detailed_age now dob = some b) :
    toSecs (calendarAddYM dob b.years b.months) + breakdownSecs b = toSecs now := by
  obtain ⟨hcond, hy, hm, hd, hh, hmi, hs⟩ := calc_spec hb
  have hca : calendarAddYM dob b.years b.months = lastAnniversary now dob := by
    rw [hy, hm]
    unfold calendarAddYM lastAnniversary annivYear annivMonth
    split_ifs <;> rfl
  rw [hca]
  unfold breakdownSecs
  rw [hd, hh, hmi, hs]
  omega

theorem claim_C1_reconstruction_witness :
    toSecs (calendarAddYM ⟨2000, 3, 15, 10, 0, 0⟩ (Breakdown.years ⟨23, 11, 28, 0, 0, 0⟩)
        (Breakdown.months ⟨23, 11, 28, 0, 0, 0⟩)) +
      breakdownSecs ⟨23, 11, 28, 0, 0, 0⟩ = toSecs ⟨2024, 3, 14, 10, 0, 0⟩ :=
  claim_C1_reconstruction ⟨2024, 3, 14, 10, 0, 0⟩ ⟨2000, 3, 15, 10, 0, 0⟩
    ⟨23, 11, 28, 0, 0, 0⟩ (by decide) (by decide) (by decide) (by decide)

/-- C6: for every valid instant `t`, `calculate_detailed_age t t` returns
the all-zero breakdown without error. -/
theorem claim_C6_identical (t : DateTime) (hv : Valid t) :
    calculate_detailed_age t t = some ⟨0, 0, 0, 0, 0, 0⟩ := by
  obtain ⟨h1, h2, h3, h4, h5, h6, h7, h8, h9, h10, h11, h12⟩ := hv
  have hay : ageYears t t = 0 := by simp [ageYears, pairLt]
  have ham : ageMonths t t = 0 := by simp [ageMonths]
  have hY : annivYear t t = t.year := by
    unfold annivYear
    rw [ham, hay]
    rw [if_neg (by omega)]
    omega
  have hM : annivMonth t t = t.month := by
    unfold annivMonth
    rw [ham]
    rw [if_neg (by omega)]
    omega
  have heta : (⟨t.year, t.month, t.day, t.hour, t.minute, t.second⟩ : DateTime) = t := rfl
  unfold calculate_detailed_age mkDateTime
  rw [hY, hM]
  rw [if_pos ⟨h1, h2, h3, h4, h5, h6, h7, h8, h9, h10, h11, h12⟩]
  simp [heta, hay, ham]

theorem claim_C6_identical_witness :
    calculate_detailed_age ⟨2024, 3, 15, 10, 0, 0⟩ ⟨2024, 3, 15, 10, 0, 0⟩ =
      some ⟨0, 0, 0, 0, 0, 0⟩ :=
  claim_C6_identical ⟨2024, 3, 15, 10, 0, 0⟩ (by decide)

/-- C2 fails as stated: with origin 2000-03-15 10:00:00 and reference
2024-03-15 09:00:00 (origin <= reference, both valid), the returned
`days` field is -1, violating `days >= 0`. -/
theorem claim_C2_counterexample :
    Valid ⟨2000, 3, 15, 10, 0, 0⟩ ∧ Valid ⟨2024, 3, 15, 9, 0, 0⟩ ∧
    dtLe ⟨2000, 3, 15, 10, 0, 0⟩ ⟨2024, 3, 15, 9, 0, 0⟩ ∧
    (calculate_detailed_age ⟨2024, 3, 15, 9, 0, 0⟩
        ⟨2000, 3, 15, 10, 0, 0⟩).map Breakdown.days = some (-1) := by
  decide

/-- C2 amended: for valid instants with origin <= reference and a returned
breakdown, `years >= 0`, `0 <= months <= 11`, `0 <= hours <= 23`,
`0 <= minutes <= 59`, `0 <= seconds <= 59`, and `days >= -1`; moreover
`days >= 0` holds whenever the origin's time-of-day does not exceed the
reference's (the sole failure mode of `days >= 0` is an
anniversary-date reference with an earlier time-of-day). -/
theorem claim_C2_amended (now dob : DateTime) (b : Breakdown)
    (hv1 : Valid dob) (hv2 : Valid now) (hle : dtLe dob now)
    (hb : calculate_detailed_age now dob = some b) :
    0 ≤ b.years ∧ 0 ≤ b.months ∧ b.months ≤ 11 ∧
    0 ≤ b.hours ∧ b.hours ≤ 23 ∧ 0 ≤ b.minutes ∧ b.minutes ≤ 59 ∧
    0 ≤ b.seconds ∧ b.seconds ≤ 59 ∧
    -1 ≤ b.days ∧ (timeOfDay dob ≤ timeOfDay now → 0 ≤ b.days) := by
  have hdl := days_lower_bound now dob b hv1 hv2 hle hb
  obtain ⟨hcond, hy, hm, hd, hh, hmi, hs⟩ := calc_spec hb
  obtain ⟨a1, a2, a3, a4, a5, a6, a7, a8, a9, a10, a11, a12⟩ := hv1
  obtain ⟨c1, c2, c3, c4, c5, c6, c7, c8, c9, c10, c11, c12⟩ := hv2
  have hmr := ageMonths_range now dob c3 c4 a3 a4
  have hyy : 0 ≤ ageYears now dob := by
    rcases hle with hlt | heq
    · simp only [dtLt] at hlt
      simp only [ageYears, pairLt]
      split_ifs <;> omega
    · rw [heq]
      simp only [ageYears, pairLt]
      split_ifs <;> omega
  exact ⟨by rw [hy]; exact hyy, by rw [hm]; exact hmr.1, by rw [hm]; exact hmr.2,
    by rw [hh]; omega, by rw [hh]; omega, by rw [hmi]; omega, by rw [hmi]; omega,
    by rw [hs]; omega, by rw [hs]; omega, hdl.1, hdl.2⟩

theorem claim_C2_amended_witness :
    0 ≤ Breakdown.years ⟨23, 11, 28, 0, 0, 0⟩ ∧
    0 ≤ Breakdown.months ⟨23, 11, 28, 0, 0, 0⟩ ∧
    Breakdown.months ⟨23, 11, 28, 0, 0, 0⟩ ≤ 11 ∧
    0 ≤ Breakdown.hours ⟨23, 11, 28, 0, 0, 0⟩ ∧
    Breakdown.hours ⟨23, 11, 28, 0, 0, 0⟩ ≤ 23 ∧
    0 ≤ Breakdown.minutes ⟨23, 11, 28, 0, 0, 0⟩ ∧
    Breakdown.minutes ⟨23, 11, 28, 0, 0, 0⟩ ≤ 59 ∧
    0 ≤ Breakdown.seconds ⟨23, 11, 28, 0, 0, 0⟩ ∧
    Breakdown.seconds ⟨23, 11, 28, 0, 0, 0⟩ ≤ 59 ∧
    -1 ≤ Breakdown.days ⟨23, 11, 28, 0, 0, 0⟩ ∧
    (timeOfDay ⟨2000, 3, 15, 10, 0, 0⟩ ≤ timeOfDay ⟨2024, 3, 14, 10, 0, 0⟩ →
      0 ≤ Breakdown.days ⟨23, 11, 28, 0, 0, 0⟩) :=
  claim_C2_amended ⟨2024, 3, 14, 10, 0, 0⟩ ⟨2000, 3, 15, 10, 0, 0⟩
    ⟨23, 11, 28, 0, 0, 0⟩ (by decide) (by decide) (by decide) (by decide)

/-- C3 fails as stated: with origin 2024-01-01 00:00:00 strictly later
than reference 2000-01-01 00:00:00, `calculate_detailed_age` does not
fail at all — it returns a breakdown (with `years = -24`); the code
performs no precondition check. -/
theorem claim_C3_counterexample :
    dtLt ⟨2000, 1, 1, 0, 0, 0⟩ ⟨2024, 1, 1, 0, 0, 0⟩ ∧
    calculate_detailed_age ⟨2000, 1, 1, 0, 0, 0⟩ ⟨2024, 1, 1, 0, 0, 0⟩ =
      some ⟨-24, 0, 0, 0, 0, 0⟩ := by
  decide

/-- C3 amended: the computation never fails because of `origin > reference`
(no such check exists); for valid inputs with origin <= reference it
fails exactly when the origin's day-of-month exceeds the length of the
computed anniversary month. -/
theorem claim_C3_amended (now dob : DateTime)
    (hv1 : Valid dob) (hv2 : Valid now) (hle : dtLe dob now) :
    calculate_detailed_age now dob = none ↔
      daysInMonth (annivYear now dob) (annivMonth now dob) < dob.day := by
  have hyb := annivYear_bounds now dob hv1 hv2 hle
  rw [calc_eq_none_iff]
  obtain ⟨a1, a2, a3, a4, a5, a6, a7, a8, a9, a10, a11, a12⟩ := hv1
  obtain ⟨c1, c2, c3, c4, c5, c6, c7, c8, c9, c10, c11, c12⟩ := hv2
  have hmr := annivMonth_range now dob c3 c4 a3 a4
  constructor
  · intro h
    by_contra hcon
    exact h ⟨by omega, by omega, hmr.1, hmr.2, a5, by omega, a7, a8, a9, a10, a11, a12⟩
  · intro h hc
    have := hc.2.2.2.2.2.1
    omega

theorem claim_C3_amended_witness :
    calculate_detailed_age ⟨2024, 3, 1, 0, 0, 0⟩ ⟨2024, 1, 31, 0, 0, 0⟩ = none ↔
      daysInMonth (annivYear ⟨2024, 3, 1, 0, 0, 0⟩ ⟨2024, 1, 31, 0, 0, 0⟩)
          (annivMonth ⟨2024, 3, 1, 0, 0, 0⟩ ⟨2024, 1, 31, 0, 0, 0⟩) <
        DateTime.day ⟨2024, 1, 31, 0, 0, 0⟩ :=
  claim_C3_amended ⟨2024, 3, 1, 0, 0, 0⟩ ⟨2024, 1, 31, 0, 0, 0⟩
    (by decide) (by decide) (by decide)

/-- C4 fails as stated: at origin 2000-03-15 10:00:00 and reference
2024-03-14 10:00:00 the returned `days` field is 28, not 365. -/
theorem claim_C4_counterexample :
    (calculate_detailed_age ⟨2024, 3, 14, 10, 0, 0⟩
        ⟨2000, 3, 15, 10, 0, 0⟩).map Breakdown.days ≠ some 365 := by
  decide

/-- C4 amended: at origin 2000-03-15 10:00:00 and reference
2024-03-14 10:00:00 the computation returns years 23, months 11 and
days 28 — the day count from the computed anniversary 2024-02-15 to the
reference, not the 365 days from 2023-03-15. -/
theorem claim_C4_amended :
    calculate_detailed_age ⟨2024, 3, 14, 10, 0, 0⟩ ⟨2000, 3, 15, 10, 0, 0⟩ =
      some ⟨23, 11, 28, 0, 0, 0⟩ := by
  decide

/-- C5: with origin 2024-01-31 00:00:00 and reference 2024-03-01 00:00:00
(origin <= reference), the anniversary construction targets February 31,
an invalid date, and the computation fails instead of returning a
breakdown. -/
theorem claim_C5_overflow_failure :
    Valid ⟨2024, 1, 31, 0, 0, 0⟩ ∧ Valid ⟨2024, 3, 1, 0, 0, 0⟩ ∧
    dtLe ⟨2024, 1, 31, 0, 0, 0⟩ ⟨2024, 3, 1, 0, 0, 0⟩ ∧
    calculate_detailed_age ⟨2024, 3, 1, 0, 0, 0⟩ ⟨2024, 1, 31, 0, 0, 0⟩ =
      none := by
  decide

/-- C7: from origin 1999-02-28 00:00:00 to reference 2000-03-01 00:00:00,
spanning leap day 2000-02-29, the computation returns one year and two
days — the leap day is counted in the `days` remainder. -/
theorem claim_C7_leap_day :
    calculate_detailed_age ⟨2000, 3, 1, 0, 0, 0⟩ ⟨1999, 2, 28, 0, 0, 0⟩ =
      some ⟨1, 0, 2, 0, 0, 0⟩ := by
  decide

/-- C9: on every pair of valid instants for which the computation returns
a breakdown — including pairs that violate the `origin <= reference`
precondition — the `months` field lies in `[0, 11]` and the `hours`,
`minutes`, `seconds` fields lie in `[0, 23]`, `[0, 59]`, `[0, 59]`. -/
theorem claim_C9_subfield_ranges (now dob : DateTime) (b : Breakdown)
    (hv1 : Valid dob) (hv2 : Valid now)
    (hb : calculate_detailed_age now dob = some b) :
    0 ≤ b.months ∧ b.months ≤ 11 ∧ 0 ≤ b.hours ∧ b.hours ≤ 23 ∧
    0 ≤ b.minutes ∧ b.minutes ≤ 59 ∧ 0 ≤ b.seconds ∧ b.seconds ≤ 59 := by
  obtain ⟨hcond, hy, hm, hd, hh, hmi, hs⟩ := calc_spec hb
  obtain ⟨a1, a2, a3, a4, a5, a6, a7, a8, a9, a10, a11, a12⟩ := hv1
  obtain ⟨c1, c2, c3, c4, c5, c6, c7, c8, c9, c10, c11, c12⟩ := hv2
  have hmr := ageMonths_range now dob c3 c4 a3 a4
  exact ⟨by rw [hm]; exact hmr.1, by rw [hm]; exact hmr.2,
    by rw [hh]; omega, by rw [hh]; omega, by rw [hmi]; omega, by rw [hmi]; omega,
    by rw [hs]; omega, by rw [hs]; omega⟩

theorem claim_C9_subfield_ranges_witness :
    0 ≤ Breakdown.months ⟨-24, 0, 0, 0, 0, 0⟩ ∧
    Breakdown.months ⟨-24, 0, 0, 0, 0, 0⟩ ≤ 11 ∧
    0 ≤ Breakdown.hours ⟨-24, 0, 0, 0, 0, 0⟩ ∧
    Breakdown.hours ⟨-24, 0, 0, 0, 0, 0⟩ ≤ 23 ∧
    0 ≤ Breakdown.minutes ⟨-24, 0, 0, 0, 0, 0⟩ ∧
    Breakdown.minutes ⟨-24, 0, 0, 0, 0, 0⟩ ≤ 59 ∧
    0 ≤ Breakdown.seconds ⟨-24, 0, 0, 0, 0, 0⟩ ∧
    Breakdown.seconds ⟨-24, 0, 0, 0, 0, 0⟩ ≤ 59 :=
  claim_C9_subfield_ranges ⟨2000, 1, 1, 0, 0, 0⟩ ⟨2024, 1, 1, 0, 0, 0⟩
    ⟨-24, 0, 0, 0, 0, 0⟩ (by decide) (by decide) (by decide)

/-- C10 fails as stated: for origin 0001-01-28 00:00:00 (day-of-month 28)
and reference 0001-01-05 00:00:00 the computed anniversary year is 0,
below the `datetime` minimum year 1, so the construction fails even
though the origin day is at most 28 — the claim overlooks year
underflow on inputs that violate the ordering precondition. -/
theorem claim_C10_counterexample :
    Valid ⟨1, 1, 28, 0, 0, 0⟩ ∧ Valid ⟨1, 1, 5, 0, 0, 0⟩ ∧
    DateTime.day ⟨1, 1, 28, 0, 0, 0⟩ ≤ 28 ∧
    calculate_detailed_age ⟨1, 1, 5, 0, 0, 0⟩ ⟨1, 1, 28, 0, 0, 0⟩ = none := by
  decide

/-- C10 amended: for valid instants with origin <= reference and origin
day-of-month at most 28, the computation always returns a breakdown:
the anniversary month is in 1..12, its year is within the origin's and
reference's years, and every month has at least 28 days. -/
theorem claim_C10_amended (now dob : DateTime)
    (hv1 : Valid dob) (hv2 : Valid now) (hle : dtLe dob now)
    (hday : dob.day ≤ 28) :
    (calculate_detailed_age now dob).isSome = true := by
  have hyb := annivYear_bounds now dob hv1 hv2 hle
  obtain ⟨a1, a2, a3, a4, a5, a6, a7, a8, a9, a10, a11, a12⟩ := hv1
  obtain ⟨c1, c2, c3, c4, c5, c6, c7, c8, c9, c10, c11, c12⟩ := hv2
  have hmr := annivMonth_range now dob c3 c4 a3 a4
  have hdim := (daysInMonth_bounds (annivYear now dob) (annivMonth now dob)).1
  unfold calculate_detailed_age mkDateTime
  rw [if_pos ⟨by omega, by omega, hmr.1, hmr.2, a5, by omega, a7, a8, a9, a10, a11, a12⟩]
  rfl

theorem claim_C10_amended_witness :
    (calculate_detailed_age ⟨2024, 3, 1, 0, 0, 0⟩ ⟨2000, 2, 15, 12, 30, 30⟩).isSome = true :=
  claim_C10_amended ⟨2024, 3, 1, 0, 0, 0⟩ ⟨2000, 2, 15, 12, 30, 30⟩
    (by decide) (by decide) (by decide) (by decide)
set_option maxHeartbeats 1000000 in
theorem ageTotal_succSecond_mono (now dob : DateTime)
    (hv1 : Valid dob) (hv2 : Valid now) :
    12 * ageYears now dob + ageMonths now dob ≤
      12 * ageYears (succSecond now) dob + ageMonths (succSecond now) dob := by
  obtain ⟨a1, a2, a3, a4, a5, a6, a7, a8, a9, a10, a11, a12⟩ := hv1
  obtain ⟨c1, c2, c3, c4, c5, c6, c7, c8, c9, c10, c11, c12⟩ := hv2
  have hdima := daysInMonth_bounds dob.year dob.month
  have hdimn := daysInMonth_bounds now.year now.month
  unfold succSecond
  split_ifs with hs hmi hh hd hmo
  all_goals simp [ageYears, ageMonths, pairLt]
  all_goals (first | (split_ifs <;> omega) | omega)

/-- C8 fails as stated: for origin 2000-03-15 10:00:00, advancing the
reference from 2024-03-14 23:59:59 to 2024-03-15 00:00:00 carries the
months/years fields (12*years + months increases by one) at midnight of
the anniversary date — ten hours before the exact anniversary instant —
and the day/time remainder neither advances by the single second nor
resets to zero (it jumps to -36000 seconds). -/
theorem claim_C8_counterexample :
    succSecond ⟨2024, 3, 14, 23, 59, 59⟩ = ⟨2024, 3, 15, 0, 0, 0⟩ ∧
    calculate_detailed_age ⟨2024, 3, 14, 23, 59, 59⟩ ⟨2000, 3, 15, 10, 0, 0⟩ =
      some ⟨23, 11, 28, 13, 59, 59⟩ ∧
    calculate_detailed_age ⟨2024, 3, 15, 0, 0, 0⟩ ⟨2000, 3, 15, 10, 0, 0⟩ =
      some ⟨24, 0, -1, 14, 0, 0⟩ ∧
    monthsTotal ⟨24, 0, -1, 14, 0, 0⟩ = monthsTotal ⟨23, 11, 28, 13, 59, 59⟩ + 1 ∧
    breakdownSecs ⟨24, 0, -1, 14, 0, 0⟩ ≠ breakdownSecs ⟨23, 11, 28, 13, 59, 59⟩ + 1 ∧
    breakdownSecs ⟨24, 0, -1, 14, 0, 0⟩ ≠ 0 := by
  decide

/-- C8 amended: for a fixed valid origin <= reference with both the
reference and its one-second successor producing breakdowns, the
combined calendar count 12*years + months never decreases, and whenever
years and months are unchanged the days/hours/minutes/seconds remainder
advances by exactly one second; at a carry the remainder is re-based on
the new anniversary (the carry happens at midnight of the anniversary
date, not at the exact anniversary instant, and the re-based remainder
may be negative). -/
theorem claim_C8_amended (now dob : DateTime) (b b' : Breakdown)
    (hv1 : Valid dob) (hv2 : Valid now) (hle : dtLe dob now)
    (hb : calculate_detailed_age now dob = some b)
    (hb' : calculate_detailed_age (succSecond now) dob = some b') :
    monthsTotal b ≤ monthsTotal b' ∧
    (b'.years = b.years ∧ b'.months = b.months →
      breakdownSecs b' = breakdownSecs b + 1) := by
  obtain ⟨hcond, hy, hm, hd, hh, hmi, hs⟩ := calc_spec hb
  obtain ⟨hcond2, hy2, hm2, hd2, hh2, hmi2, hs2⟩ := calc_spec hb'
  constructor
  · have hmono := ageTotal_succSecond_mono now dob hv1 hv2
    unfold monthsTotal
    rw [hy, hm, hy2, hm2]
    exact hmono
  · rintro ⟨hey, hem⟩
    have h1 : ageYears (succSecond now) dob = ageYears now dob := by
      rw [← hy2, hey, hy]
    have h2 : ageMonths (succSecond now) dob = ageMonths now dob := by
      rw [← hm2, hem, hm]
    have hla : lastAnniversary (succSecond now) dob = lastAnniversary now dob := by
      unfold lastAnniversary annivYear annivMonth
      rw [h1, h2]
    have hts := toSecs_succSecond now hv2
    have hbs : breakdownSecs b = toSecs now - toSecs (lastAnniversary now dob) := by
      unfold breakdownSecs
      rw [hd, hh, hmi, hs]
      omega
    have hbs2 : breakdownSecs b' =
        toSecs (succSecond now) - toSecs (lastAnniversary (succSecond now) dob) := by
      unfold breakdownSecs
      rw [hd2, hh2, hmi2, hs2]
      omega
    rw [hbs, hbs2, hla, hts]
    ring

theorem claim_C8_amended_witness :
    monthsTotal ⟨23, 11, 28, 0, 0, 0⟩ ≤ monthsTotal ⟨23, 11, 28, 0, 0, 1⟩ ∧
    (Breakdown.years ⟨23, 11, 28, 0, 0, 1⟩ = Breakdown.years ⟨23, 11, 28, 0, 0, 0⟩ ∧
     Breakdown.months ⟨23, 11, 28, 0, 0, 1⟩ = Breakdown.months ⟨23, 11, 28, 0, 0, 0⟩ →
      breakdownSecs ⟨23, 11, 28, 0, 0, 1⟩ = breakdownSecs ⟨23, 11, 28, 0, 0, 0⟩ + 1) :=
  claim_C8_amended ⟨2024, 3, 14, 10, 0, 0⟩ ⟨2000, 3, 15, 10, 0, 0⟩
    ⟨23, 11, 28, 0, 0, 0⟩ ⟨23, 11, 28, 0, 0, 1⟩
    (by decide) (by decide) (by decide) (by decide) (by decide)
